import Mathlib

/-!
Shallow embedding of `src/rfid_app_3.py`, the protocol engine of a serial
RFID reader/writer driver.  Python byte strings are modelled as `List Nat`
(each element a byte value `< 256`), text strings as `List Char`, and the
serial transport as an explicit state: the log of frames written so far and
the queue of raw byte chunks the device will deliver, one chunk per exchange.
Python exceptions are modelled with `Except`; the failure names follow the
spec's taxonomy (§7) for the source's `AssertionError`/`IOError` sites.
-/

deriving instance DecidableEq for Except

namespace RfidApp

/-- Model of `_checksum(s)` (src lines 33-36): XOR of all bytes, seeded at 0. -/
def _checksum (s : List Nat) : Nat := s.foldl (fun r c => r ^^^ c) 0

/-- A lowercase hex digit character, as produced by Python `"%02x"`:
`48 = '0'.toNat`, `87 + 10 = 'a'.toNat`. -/
def hexDigit (n : Nat) : Char := if n < 10 then Char.ofNat (48 + n) else Char.ofNat (87 + n)

/-- The two lowercase hex digits of one byte (`"%02x" % ord(c)`, `ord c < 256`). -/
def byteHexChars (c : Nat) : List Char := [hexDigit (c / 16), hexDigit (c % 16)]

/-- Model of `_strtohex(s, sep)` (src lines 38-40): two lowercase hex digits per byte,
joined by `sep`.  The source's default separator is a single space. -/
def _strtohex (s : List Nat) (sep : List Char) : List Char :=
  List.intercalate sep (s.map byteHexChars)

/-- Numeric value of one hex character, following the source's three range
tests (`0-9`, `a-f`, `A-F`); `none` when the character is not a hex digit. -/
def hexVal (c : Char) : Option Nat :=
  if '0' ≤ c ∧ c ≤ '9' then some (c.toNat - 48)
  else if 'a' ≤ c ∧ c ≤ 'f' then some (c.toNat - 97 + 10)
  else if 'A' ≤ c ∧ c ≤ 'F' then some (c.toNat - 65 + 10)
  else none

/-- The loop of `_hextostr` (src lines 42-61): `tmp` holds a pending high
nibble, `acc` the bytes decoded so far (the source's `hex` accumulator). -/
def hextostrLoop : List Char → Option Nat → List Nat → Except String (List Nat)
  | [], none, acc => .ok acc
  | [], some _, _ => .error "even number of hexadecimal characters"
  | c :: rest, tmp, acc =>
    if c = ' ' then hextostrLoop rest tmp acc
    else
      match hexVal c with
      | none => .error "not an hexadecimal character"
      | some v =>
        match tmp with
        | none => hextostrLoop rest (some v) acc
        | some t => hextostrLoop rest none (acc ++ [(t <<< 4) ||| v])

/-- Model of `_hextostr(s)` (src lines 42-61): strips spaces, consumes hex digit pairs;
the source's `ValueError`s are modelled as `Except.error` carrying the
source's message text. -/
def _hextostr (s : List Char) : Except String (List Nat) := hextostrLoop s none []

/-- Model of `_strtonum(s)` (src lines 63-65): big-endian byte decode by repeated
shift-and-or. -/
def _strtonum (s : List Nat) : Nat := s.foldl (fun r c => (r <<< 8) ||| c) 0

/-- The loop of `_numtostr` (src lines 67-73): prepends `n & 0xFF` then shifts
right by 8, `l` times. -/
def numtostrLoop : Nat → Nat → List Nat → List Nat
  | 0, _, d => d
  | i + 1, n, d => numtostrLoop i (n >>> 8) ((n &&& 0xFF) :: d)

/-- Model of `_numtostr(n, l)` (src lines 67-73): big-endian encoding of the low `l`
bytes of `n`.  The source's default width is 5. -/
def _numtostr (n : Nat) (l : Nat) : List Nat := numtostrLoop l n []

/-- The engine's failure taxonomy.  The source raises `AssertionError` or
`IOError` with distinct messages; the constructor names follow spec §7. -/
inductive ProtoError where
  | ProtocolViolation
  | Timeout
  | MalformedResponse
  | ChecksumMismatch
  | DeviceError (status : Nat)
  | WriteVerificationFailed
  deriving DecidableEq

/-- The serial transport: the log of frames written so far and the queue of
raw byte chunks the device will deliver, one chunk per exchange. -/
structure TransportState where
  written : List (List Nat)
  incoming : List (List Nat)
  deriving DecidableEq

/-- The outbound frame built by `_execute_waitresult` (src line 80):
preamble `AA DD 00`, length byte `len(opcode+data)+1`, opcode, data, and a
checksum of `opcode+data` (the length byte is not part of the checksum). -/
def buildCmd (opcode data : List Nat) : List Nat :=
  [0xAA, 0xDD, 0x00] ++ [(opcode ++ data).length + 1] ++ (opcode ++ data) ++
    [_checksum (opcode ++ data)]

/-- The response-parsing phase of `_execute_waitresult` (src lines 96-110).
Python indexes `result[6]` for the status byte; a frame that passes the shape
checks yet has no byte at index 6 is modelled with `getD` default 0. -/
def parseResult (opcode : List Nat) (check_result : Option Nat) (result : List Nat) :
    Except ProtoError (Nat × List Nat) :=
  if result.length < 4 ∨ result.getD 3 0 ≠ result.length - 4 then
    .error .MalformedResponse
  else if result.take 3 ≠ [0xAA, 0xDD, 0x00] ∨ (result.drop 4).take 2 ≠ opcode then
    .error .MalformedResponse
  else if _checksum (result.drop 4) ≠ 0 then
    .error .ChecksumMismatch
  else
    match check_result with
    | some cr =>
      if result.getD 6 0 ≠ cr then .error (.DeviceError (result.getD 6 0))
      else .ok (result.getD 6 0, (result.drop 7).dropLast)
    | none => .ok (result.getD 6 0, (result.drop 7).dropLast)

/-- Model of `_execute_waitresult(opcode, data, timeout, check_result)` (src lines
75-110): precondition check, frame build and write, one read of at most
`1 + 1000` bytes, then parsing.  Real time is not modelled: an absent or
empty chunk is the timeout case (`result == ""` in the source). -/
def _execute_waitresult (opcode data : List Nat) (check_result : Option Nat)
    (ts : TransportState) : TransportState × Except ProtoError (Nat × List Nat) :=
  if opcode.length = 2 ∧ data.length ≤ 252 then
    match ts.incoming with
    | [] => (⟨ts.written ++ [buildCmd opcode data], []⟩, .error .Timeout)
    | r :: rest =>
      if r.take 1001 = [] then (⟨ts.written ++ [buildCmd opcode data], rest⟩, .error .Timeout)
      else (⟨ts.written ++ [buildCmd opcode data], rest⟩, parseResult opcode check_result (r.take 1001))
  else (ts, .error .ProtocolViolation)

/-- Model of `read_token_raw` (src lines 122-126): READ-TOKEN exchange with no expected
status; `0x00` yields the payload, `0x01` yields no card, anything else is a
device error surfaced verbatim. -/
def read_token_raw (ts : TransportState) :
    TransportState × Except ProtoError (Option (List Nat)) :=
  match _execute_waitresult [0x01, 0x0C] [] none ts with
  | (ts1, .error e) => (ts1, .error e)
  | (ts1, .ok (s, d)) =>
    if s = 0x00 then (ts1, .ok (some d))
    else if s = 0x01 then (ts1, .ok none)
    else (ts1, .error (.DeviceError s))

/-- Model of `write_token_raw(data, lock)` (src lines 132-140): WRITE-TOKEN exchange,
verify by read-back, alternate WRITE-TOKEN-ALT exchange, verify again, and
only then fail. -/
def write_token_raw (data : List Nat) (lock : Bool) (ts : TransportState) :
    TransportState × Except ProtoError Unit :=
  match _execute_waitresult [0x02, 0x0C] ((if lock then 0x01 else 0x00) :: data) (some 0x00) ts with
  | (ts1, .error e) => (ts1, .error e)
  | (ts1, .ok _) =>
    match read_token_raw ts1 with
    | (ts2, .error e) => (ts2, .error e)
    | (ts2, .ok r1) =>
      if r1 = some data then (ts2, .ok ())
      else
        match _execute_waitresult [0x03, 0x0C] ((if lock then 0x01 else 0x00) :: data) (some 0x00) ts2 with
        | (ts3, .error e) => (ts3, .error e)
        | (ts3, .ok _) =>
          match read_token_raw ts3 with
          | (ts4, .error e) => (ts4, .error e)
          | (ts4, .ok r2) =>
            if r2 = some data then (ts4, .ok ())
            else (ts4, .error .WriteVerificationFailed)

/-- Model of `write_token(num)` (src lines 142-143). -/
def write_token (num : Nat) (ts : TransportState) :
    TransportState × Except ProtoError Unit :=
  write_token_raw (_numtostr num 5) false ts

/-! ## Helper lemmas -/

/-- Appending a sequence's own XOR checksum makes the total XOR zero. -/
theorem checksum_append_self (s : List Nat) : _checksum (s ++ [_checksum s]) = 0 := by
  simp [_checksum, List.foldl_append]

/-- Shift-and-or assembles place-value arithmetic when the low part fits. -/
theorem shiftLeft_or_eq_add (r k c : Nat) (h : c < 2 ^ k) :
    (r <<< k) ||| c = 2 ^ k * r + c := by
  rw [Nat.shiftLeft_eq, Nat.mul_comm, ← Nat.mul_add_lt_is_or h r]

/-- Byte-sized specialisation of `shiftLeft_or_eq_add`, in `%`/`*` form. -/
theorem or_mod256 (r x : Nat) : (r <<< 8) ||| x % 256 = 256 * r + x % 256 := by
  have h := shiftLeft_or_eq_add r 8 (x % 256) (by omega)
  norm_num at h
  exact h

/-- Masking with `0xFF` is reduction modulo 256. -/
theorem and255_eq_mod (x : Nat) : x &&& 255 = x % 256 := by
  have h := Nat.and_pow_two_sub_one_eq_mod x 8
  norm_num at h
  exact h

/-- Shifting right by 8 is division by 256. -/
theorem shr8_eq_div (x : Nat) : x >>> 8 = x / 256 := by
  have h := Nat.shiftRight_eq_div_pow x 8
  norm_num at h
  exact h

/-- The parser of `_execute_waitresult` never signals a precondition failure. -/
theorem parseResult_ne_protocolViolation (opcode : List Nat) (cr : Option Nat) (r : List Nat) :
    parseResult opcode cr r ≠ .error .ProtocolViolation := by
  unfold parseResult
  split
  · simp
  split
  · simp
  split
  · simp
  split
  · split <;> simp
  · simp

/-! ## Claim theorems -/

/-- Claim C1, counterexample: the outbound GET-INFO frame built by the code is
`AA DD 00 03 01 02 03`, not the claimed `AA DD 00 03 01 02 00`, and the XOR of
its bytes from the length byte (index 3) through the checksum byte is nonzero,
refuting the claimed checksum convention. -/
theorem buildCmd_getinfo_counterexample :
    buildCmd [0x01, 0x02] [] ≠ [0xAA, 0xDD, 0x00, 0x03, 0x01, 0x02, 0x00] ∧
    _checksum ((buildCmd [0x01, 0x02] []).drop 3) ≠ 0 := by
  decide

/-- Claim C1, amended: for every 2-byte opcode and payload of at most 252
bytes, the checksum byte of the outbound frame equals the XOR of the opcode
and payload bytes only (the length byte is excluded), so the XOR of the bytes
from the opcode through the checksum byte inclusive is zero; the exchange
operation writes exactly this frame, and a GET-INFO request with empty
payload yields the exact frame `AA DD 00 03 01 02 03`. -/
theorem buildCmd_checksum_spec (opcode data : List Nat) (cr : Option Nat)
    (ts : TransportState) (h1 : opcode.length = 2) (h2 : data.length ≤ 252) :
    (buildCmd opcode data).getLast? = some (_checksum (opcode ++ data)) ∧
    _checksum ((buildCmd opcode data).drop 4) = 0 ∧
    (_execute_waitresult opcode data cr ts).1.written = ts.written ++ [buildCmd opcode data] ∧
    buildCmd [0x01, 0x02] [] = [0xAA, 0xDD, 0x00, 0x03, 0x01, 0x02, 0x03] := by
  obtain ⟨a, b, rfl⟩ := List.length_eq_two.mp h1
  refine ⟨List.getLast?_concat _, ?_, ?_, by decide⟩
  · show _checksum ((a :: b :: data) ++ [_checksum (a :: b :: data)]) = 0
    exact checksum_append_self _
  · obtain ⟨w, inc⟩ := ts
    unfold _execute_waitresult
    rw [if_pos ⟨by simp, h2⟩]
    cases inc with
    | nil => rfl
    | cons r rest =>
      dsimp only
      by_cases he : r.take 1001 = []
      · rw [if_pos he]
      · rw [if_neg he]

/-- Witness for `buildCmd_checksum_spec` at the GET-INFO request. -/
theorem buildCmd_checksum_spec_witness :
    ([0x01, 0x02] : List Nat).length = 2 ∧ ([] : List Nat).length ≤ 252 ∧
    ((buildCmd [0x01, 0x02] []).getLast? = some (_checksum ([0x01, 0x02] ++ [])) ∧
     _checksum ((buildCmd [0x01, 0x02] []).drop 4) = 0 ∧
     (_execute_waitresult [0x01, 0x02] [] none ⟨[], []⟩).1.written =
       ([] : List (List Nat)) ++ [buildCmd [0x01, 0x02] []] ∧
     buildCmd [0x01, 0x02] [] = [0xAA, 0xDD, 0x00, 0x03, 0x01, 0x02, 0x03]) :=
  ⟨by decide, by decide,
    buildCmd_checksum_spec [0x01, 0x02] [] none ⟨[], []⟩ (by decide) (by decide)⟩

/-- Claim C2, counterexample: the response `AA DD 00 04 01 02 00 03` to opcode
`01 02` has nonzero XOR over bytes from index 3 to the end, yet the parser
accepts it (no `ChecksumMismatch`): the validated span starts at index 4. -/
theorem parseResult_checksum_counterexample :
    _checksum (([0xAA, 0xDD, 0x00, 0x04, 0x01, 0x02, 0x00, 0x03] : List Nat).drop 3) ≠ 0 ∧
    parseResult [0x01, 0x02] none [0xAA, 0xDD, 0x00, 0x04, 0x01, 0x02, 0x00, 0x03] =
      .ok (0, []) := by
  decide

/-- Claim C2, amended: for every response that already passed the length-field,
preamble and opcode-echo checks, the parser raises `ChecksumMismatch` if and
only if the XOR of the response bytes from index 4 through the final byte is
nonzero. -/
theorem parseResult_checksum_iff (opcode : List Nat) (cr : Option Nat) (result : List Nat)
    (h1 : ¬(result.length < 4 ∨ result.getD 3 0 ≠ result.length - 4))
    (h2 : ¬(result.take 3 ≠ [0xAA, 0xDD, 0x00] ∨ (result.drop 4).take 2 ≠ opcode)) :
    parseResult opcode cr result = .error .ChecksumMismatch ↔
      _checksum (result.drop 4) ≠ 0 := by
  unfold parseResult
  rw [if_neg h1, if_neg h2]
  by_cases h3 : _checksum (result.drop 4) ≠ 0
  · rw [if_pos h3]
    simp [h3]
  · rw [if_neg h3]
    simp only [h3, iff_false]
    split
    · split <;> simp
    · simp

/-- Witness for `parseResult_checksum_iff` at a corrupted READ response. -/
theorem parseResult_checksum_iff_witness :
    (¬(([0xAA, 0xDD, 0x00, 0x04, 0x01, 0x02, 0x00, 0xFF] : List Nat).length < 4 ∨
        ([0xAA, 0xDD, 0x00, 0x04, 0x01, 0x02, 0x00, 0xFF] : List Nat).getD 3 0 ≠
          ([0xAA, 0xDD, 0x00, 0x04, 0x01, 0x02, 0x00, 0xFF] : List Nat).length - 4)) ∧
    (parseResult [0x01, 0x02] none [0xAA, 0xDD, 0x00, 0x04, 0x01, 0x02, 0x00, 0xFF] =
        .error .ChecksumMismatch ↔
      _checksum (([0xAA, 0xDD, 0x00, 0x04, 0x01, 0x02, 0x00, 0xFF] : List Nat).drop 4) ≠ 0) :=
  ⟨by decide, parseResult_checksum_iff [0x01, 0x02] none _ (by decide) (by decide)⟩

/-- Claim C5: the parser raises `MalformedResponse` exactly when the response
is shorter than 4 bytes, or its byte at index 3 differs from the total length
minus 4, or its first three bytes differ from `AA DD 00`, or its echoed opcode
differs from the request opcode; these checks take priority over the checksum
check. -/
theorem parseResult_malformed_iff (opcode : List Nat) (cr : Option Nat) (result : List Nat) :
    parseResult opcode cr result = .error .MalformedResponse ↔
      (result.length < 4 ∨ result.getD 3 0 ≠ result.length - 4 ∨
       result.take 3 ≠ [0xAA, 0xDD, 0x00] ∨ (result.drop 4).take 2 ≠ opcode) := by
  unfold parseResult
  by_cases h1 : result.length < 4 ∨ result.getD 3 0 ≠ result.length - 4
  · rw [if_pos h1]
    exact iff_of_true rfl (by tauto)
  · rw [if_neg h1]
    by_cases h2 : result.take 3 ≠ [0xAA, 0xDD, 0x00] ∨ (result.drop 4).take 2 ≠ opcode
    · rw [if_pos h2]
      exact iff_of_true rfl (by tauto)
    · rw [if_neg h2]
      have hfalse : ¬(result.length < 4 ∨ result.getD 3 0 ≠ result.length - 4 ∨
          result.take 3 ≠ [0xAA, 0xDD, 0x00] ∨ (result.drop 4).take 2 ≠ opcode) := by
        tauto
      by_cases h3 : _checksum (result.drop 4) ≠ 0
      · rw [if_pos h3]
        exact iff_of_false (by simp) hfalse
      · rw [if_neg h3]
        refine iff_of_false ?_ hfalse
        split
        · split <;> simp
        · simp

/-- Claim C9: the exchange fails with `ProtocolViolation`, leaving the
transport untouched (no bytes written), exactly when the opcode is not 2 bytes
or the payload exceeds 252 bytes; under the precondition this branch is
unreachable. -/
theorem execute_waitresult_precondition (opcode data : List Nat) (cr : Option Nat)
    (ts : TransportState) :
    _execute_waitresult opcode data cr ts = (ts, .error .ProtocolViolation) ↔
      ¬(opcode.length = 2 ∧ data.length ≤ 252) := by
  constructor
  · intro h hpre
    obtain ⟨w, inc⟩ := ts
    unfold _execute_waitresult at h
    rw [if_pos hpre] at h
    cases inc with
    | nil => simp at h
    | cons r rest =>
      dsimp only at h
      by_cases he : r.take 1001 = []
      · rw [if_pos he] at h
        simp at h
      · rw [if_neg he] at h
        have h2 := congrArg Prod.snd h
        exact parseResult_ne_protocolViolation _ _ _ h2
  · intro h
    unfold _execute_waitresult
    rw [if_neg h]

/-- Claim C6: decoding the 5-byte big-endian encoding returns the value for
every token value below `2 ^ 40`. -/
theorem strtonum_numtostr_roundtrip (v : Nat) (h : v < 2 ^ 40) :
    _strtonum (_numtostr v 5) = v := by
  show _strtonum [v >>> 8 >>> 8 >>> 8 >>> 8 &&& 255, v >>> 8 >>> 8 >>> 8 &&& 255,
      v >>> 8 >>> 8 &&& 255, v >>> 8 &&& 255, v &&& 255] = v
  simp only [_strtonum, List.foldl_cons, List.foldl_nil, and255_eq_mod, shr8_eq_div,
    or_mod256]
  omega

/-- Witness for `strtonum_numtostr_roundtrip` at the spec's example token. -/
theorem strtonum_numtostr_roundtrip_witness :
    305419896 < 2 ^ 40 ∧ _strtonum (_numtostr 305419896 5) = 305419896 :=
  ⟨by norm_num, strtonum_numtostr_roundtrip 305419896 (by norm_num)⟩

/-- Claim C4: for every status byte `s` the READ-TOKEN exchange returns,
`read_token_raw` yields the response payload when `s = 0x00`, yields no card
when `s = 0x01`, and fails with `DeviceError s` for every other `s`. -/
theorem read_token_raw_status (ts ts1 : TransportState) (s : Nat) (d : List Nat)
    (h : _execute_waitresult [0x01, 0x0C] [] none ts = (ts1, .ok (s, d))) :
    read_token_raw ts = (ts1,
      if s = 0x00 then .ok (some d)
      else if s = 0x01 then .ok none
      else .error (.DeviceError s)) := by
  unfold read_token_raw
  rw [h]
  by_cases h0 : s = 0 <;> by_cases h1 : s = 1 <;> simp [h0, h1]

/-- Witness for `read_token_raw_status` at a successful read of token `AB`. -/
theorem read_token_raw_status_witness :
    _execute_waitresult [0x01, 0x0C] [] none
        ⟨[], [[0xAA, 0xDD, 0x00, 0x05, 0x01, 0x0C, 0x00, 0xAB, 0xA6]]⟩ =
      (⟨[[0xAA, 0xDD, 0x00, 0x03, 0x01, 0x0C, 0x0D]], []⟩, .ok (0, [0xAB])) ∧
    read_token_raw ⟨[], [[0xAA, 0xDD, 0x00, 0x05, 0x01, 0x0C, 0x00, 0xAB, 0xA6]]⟩ =
      (⟨[[0xAA, 0xDD, 0x00, 0x03, 0x01, 0x0C, 0x0D]], []⟩,
        if (0 : Nat) = 0x00 then .ok (some [0xAB])
        else if (0 : Nat) = 0x01 then .ok none
        else .error (.DeviceError 0)) :=
  ⟨by decide, read_token_raw_status _ _ 0 [0xAB] (by decide)⟩

/-- Claim C3: `write_token_raw` follows the two-attempt verify state machine:
a first read-back equal to the raw token returns success with no second write
exchange issued (the resulting transport state is the one right after the
first verify); otherwise the alternate write runs and a matching second
read-back returns success; otherwise it fails with `WriteVerificationFailed`.
Furthermore `write_token 305419896` issues the first-attempt payload
`00 00 12 34 56 78`. -/
theorem write_token_raw_two_attempt (data : List Nat) (lock : Bool)
    (ts ts1 ts2 ts3 ts4 : TransportState) (a1 a2 : Nat × List Nat)
    (r1 r2 : Option (List Nat))
    (hw1 : _execute_waitresult [0x02, 0x0C] ((if lock then 0x01 else 0x00) :: data)
      (some 0x00) ts = (ts1, .ok a1))
    (hr1 : read_token_raw ts1 = (ts2, .ok r1))
    (hw2 : _execute_waitresult [0x03, 0x0C] ((if lock then 0x01 else 0x00) :: data)
      (some 0x00) ts2 = (ts3, .ok a2))
    (hr2 : read_token_raw ts3 = (ts4, .ok r2)) :
    write_token_raw data lock ts =
      (if r1 = some data then (ts2, .ok ())
       else if r2 = some data then (ts4, .ok ())
       else (ts4, .error .WriteVerificationFailed)) ∧
    (0x00 : Nat) :: _numtostr 305419896 5 = [0x00, 0x00, 0x12, 0x34, 0x56, 0x78] ∧
    write_token 305419896 ts = write_token_raw (_numtostr 305419896 5) false ts := by
  refine ⟨?_, by decide, rfl⟩
  simp only [write_token_raw, hw1, hr1, hw2, hr2]

/-- Witness for `write_token_raw_two_attempt`: a transcript whose first
read-back already matches, so the result is success in the post-first-verify
state. -/
theorem write_token_raw_two_attempt_witness :
    _execute_waitresult [0x02, 0x0C] ((if false then 0x01 else 0x00) :: [0xAB]) (some 0x00)
        ⟨[], [[0xAA, 0xDD, 0x00, 0x04, 0x02, 0x0C, 0x00, 0x0E],
              [0xAA, 0xDD, 0x00, 0x05, 0x01, 0x0C, 0x00, 0xAB, 0xA6],
              [0xAA, 0xDD, 0x00, 0x04, 0x03, 0x0C, 0x00, 0x0F],
              [0xAA, 0xDD, 0x00, 0x04, 0x01, 0x0C, 0x01, 0x0C]]⟩ =
      (⟨[[0xAA, 0xDD, 0x00, 0x05, 0x02, 0x0C, 0x00, 0xAB, 0xA5]],
        [[0xAA, 0xDD, 0x00, 0x05, 0x01, 0x0C, 0x00, 0xAB, 0xA6],
         [0xAA, 0xDD, 0x00, 0x04, 0x03, 0x0C, 0x00, 0x0F],
         [0xAA, 0xDD, 0x00, 0x04, 0x01, 0x0C, 0x01, 0x0C]]⟩, .ok (0, [])) ∧
    write_token_raw [0xAB] false
        ⟨[], [[0xAA, 0xDD, 0x00, 0x04, 0x02, 0x0C, 0x00, 0x0E],
              [0xAA, 0xDD, 0x00, 0x05, 0x01, 0x0C, 0x00, 0xAB, 0xA6],
              [0xAA, 0xDD, 0x00, 0x04, 0x03, 0x0C, 0x00, 0x0F],
              [0xAA, 0xDD, 0x00, 0x04, 0x01, 0x0C, 0x01, 0x0C]]⟩ =
      (if some [0xAB] = some [0xAB] then
        (⟨[[0xAA, 0xDD, 0x00, 0x05, 0x02, 0x0C, 0x00, 0xAB, 0xA5],
           [0xAA, 0xDD, 0x00, 0x03, 0x01, 0x0C, 0x0D]],
          [[0xAA, 0xDD, 0x00, 0x04, 0x03, 0x0C, 0x00, 0x0F],
           [0xAA, 0xDD, 0x00, 0x04, 0x01, 0x0C, 0x01, 0x0C]]⟩, .ok ())
       else if (none : Option (List Nat)) = some [0xAB] then
        (⟨[[0xAA, 0xDD, 0x00, 0x05, 0x02, 0x0C, 0x00, 0xAB, 0xA5],
           [0xAA, 0xDD, 0x00, 0x03, 0x01, 0x0C, 0x0D],
           [0xAA, 0xDD, 0x00, 0x05, 0x03, 0x0C, 0x00, 0xAB, 0xA4],
           [0xAA, 0xDD, 0x00, 0x03, 0x01, 0x0C, 0x0D]], []⟩, .ok ())
       else
        (⟨[[0xAA, 0xDD, 0x00, 0x05, 0x02, 0x0C, 0x00, 0xAB, 0xA5],
           [0xAA, 0xDD, 0x00, 0x03, 0x01, 0x0C, 0x0D],
           [0xAA, 0xDD, 0x00, 0x05, 0x03, 0x0C, 0x00, 0xAB, 0xA4],
           [0xAA, 0xDD, 0x00, 0x03, 0x01, 0x0C, 0x0D]], []⟩,
          .error .WriteVerificationFailed)) :=
  ⟨by decide,
    (write_token_raw_two_attempt [0xAB] false
      ⟨[], [[0xAA, 0xDD, 0x00, 0x04, 0x02, 0x0C, 0x00, 0x0E],
            [0xAA, 0xDD, 0x00, 0x05, 0x01, 0x0C, 0x00, 0xAB, 0xA6],
            [0xAA, 0xDD, 0x00, 0x04, 0x03, 0x0C, 0x00, 0x0F],
            [0xAA, 0xDD, 0x00, 0x04, 0x01, 0x0C, 0x01, 0x0C]]⟩
      ⟨[[0xAA, 0xDD, 0x00, 0x05, 0x02, 0x0C, 0x00, 0xAB, 0xA5]],
       [[0xAA, 0xDD, 0x00, 0x05, 0x01, 0x0C, 0x00, 0xAB, 0xA6],
        [0xAA, 0xDD, 0x00, 0x04, 0x03, 0x0C, 0x00, 0x0F],
        [0xAA, 0xDD, 0x00, 0x04, 0x01, 0x0C, 0x01, 0x0C]]⟩
      ⟨[[0xAA, 0xDD, 0x00, 0x05, 0x02, 0x0C, 0x00, 0xAB, 0xA5],
        [0xAA, 0xDD, 0x00, 0x03, 0x01, 0x0C, 0x0D]],
       [[0xAA, 0xDD, 0x00, 0x04, 0x03, 0x0C, 0x00, 0x0F],
        [0xAA, 0xDD, 0x00, 0x04, 0x01, 0x0C, 0x01, 0x0C]]⟩
      ⟨[[0xAA, 0xDD, 0x00, 0x05, 0x02, 0x0C, 0x00, 0xAB, 0xA5],
        [0xAA, 0xDD, 0x00, 0x03, 0x01, 0x0C, 0x0D],
        [0xAA, 0xDD, 0x00, 0x05, 0x03, 0x0C, 0x00, 0xAB, 0xA4]],
       [[0xAA, 0xDD, 0x00, 0x04, 0x01, 0x0C, 0x01, 0x0C]]⟩
      ⟨[[0xAA, 0xDD, 0x00, 0x05, 0x02, 0x0C, 0x00, 0xAB, 0xA5],
        [0xAA, 0xDD, 0x00, 0x03, 0x01, 0x0C, 0x0D],
        [0xAA, 0xDD, 0x00, 0x05, 0x03, 0x0C, 0x00, 0xAB, 0xA4],
        [0xAA, 0xDD, 0x00, 0x03, 0x01, 0x0C, 0x0D]], []⟩
      (0, []) (0, []) (some [0xAB]) none
      (by decide) (by decide) (by decide) (by decide)).1⟩

/-- Claim C10: in `write_token_raw`, a verification read-back reporting no
card (`read_token_raw` returning `none`) is treated exactly like a value
mismatch: after the first write the alternate write attempt runs, and after
the second write the operation fails with `WriteVerificationFailed` unless
the second read-back matches; no no-card condition is surfaced from the
verify steps. -/
theorem write_token_raw_noCard (data : List Nat) (lock : Bool)
    (ts ts1 ts2 ts3 ts4 : TransportState) (a1 a2 : Nat × List Nat)
    (r2 : Option (List Nat))
    (hw1 : _execute_waitresult [0x02, 0x0C] ((if lock then 0x01 else 0x00) :: data)
      (some 0x00) ts = (ts1, .ok a1))
    (hr1 : read_token_raw ts1 = (ts2, .ok none))
    (hw2 : _execute_waitresult [0x03, 0x0C] ((if lock then 0x01 else 0x00) :: data)
      (some 0x00) ts2 = (ts3, .ok a2))
    (hr2 : read_token_raw ts3 = (ts4, .ok r2)) :
    write_token_raw data lock ts =
      (if r2 = some data then (ts4, .ok ())
       else (ts4, .error .WriteVerificationFailed)) := by
  simp only [write_token_raw, hw1, hr1, hw2, hr2]
  rw [if_neg (by simp)]

/-- Witness for `write_token_raw_noCard`: both read-backs report no card, so
the write fails with `WriteVerificationFailed`. -/
theorem write_token_raw_noCard_witness :
    read_token_raw ⟨[[0xAA, 0xDD, 0x00, 0x05, 0x02, 0x0C, 0x00, 0xAB, 0xA5]],
        [[0xAA, 0xDD, 0x00, 0x04, 0x01, 0x0C, 0x01, 0x0C],
         [0xAA, 0xDD, 0x00, 0x04, 0x03, 0x0C, 0x00, 0x0F],
         [0xAA, 0xDD, 0x00, 0x04, 0x01, 0x0C, 0x01, 0x0C]]⟩ =
      (⟨[[0xAA, 0xDD, 0x00, 0x05, 0x02, 0x0C, 0x00, 0xAB, 0xA5],
         [0xAA, 0xDD, 0x00, 0x03, 0x01, 0x0C, 0x0D]],
        [[0xAA, 0xDD, 0x00, 0x04, 0x03, 0x0C, 0x00, 0x0F],
         [0xAA, 0xDD, 0x00, 0x04, 0x01, 0x0C, 0x01, 0x0C]]⟩, .ok none) ∧
    write_token_raw [0xAB] false
        ⟨[], [[0xAA, 0xDD, 0x00, 0x04, 0x02, 0x0C, 0x00, 0x0E],
              [0xAA, 0xDD, 0x00, 0x04, 0x01, 0x0C, 0x01, 0x0C],
              [0xAA, 0xDD, 0x00, 0x04, 0x03, 0x0C, 0x00, 0x0F],
              [0xAA, 0xDD, 0x00, 0x04, 0x01, 0x0C, 0x01, 0x0C]]⟩ =
      (if (none : Option (List Nat)) = some [0xAB] then
        (⟨[[0xAA, 0xDD, 0x00, 0x05, 0x02, 0x0C, 0x00, 0xAB, 0xA5],
           [0xAA, 0xDD, 0x00, 0x03, 0x01, 0x0C, 0x0D],
           [0xAA, 0xDD, 0x00, 0x05, 0x03, 0x0C, 0x00, 0xAB, 0xA4],
           [0xAA, 0xDD, 0x00, 0x03, 0x01, 0x0C, 0x0D]], []⟩, .ok ())
       else
        (⟨[[0xAA, 0xDD, 0x00, 0x05, 0x02, 0x0C, 0x00, 0xAB, 0xA5],
           [0xAA, 0xDD, 0x00, 0x03, 0x01, 0x0C, 0x0D],
           [0xAA, 0xDD, 0x00, 0x05, 0x03, 0x0C, 0x00, 0xAB, 0xA4],
           [0xAA, 0xDD, 0x00, 0x03, 0x01, 0x0C, 0x0D]], []⟩,
          .error .WriteVerificationFailed)) :=
  ⟨by decide,
    write_token_raw_noCard [0xAB] false
      ⟨[], [[0xAA, 0xDD, 0x00, 0x04, 0x02, 0x0C, 0x00, 0x0E],
            [0xAA, 0xDD, 0x00, 0x04, 0x01, 0x0C, 0x01, 0x0C],
            [0xAA, 0xDD, 0x00, 0x04, 0x03, 0x0C, 0x00, 0x0F],
            [0xAA, 0xDD, 0x00, 0x04, 0x01, 0x0C, 0x01, 0x0C]]⟩
      ⟨[[0xAA, 0xDD, 0x00, 0x05, 0x02, 0x0C, 0x00, 0xAB, 0xA5]],
       [[0xAA, 0xDD, 0x00, 0x04, 0x01, 0x0C, 0x01, 0x0C],
        [0xAA, 0xDD, 0x00, 0x04, 0x03, 0x0C, 0x00, 0x0F],
        [0xAA, 0xDD, 0x00, 0x04, 0x01, 0x0C, 0x01, 0x0C]]⟩
      ⟨[[0xAA, 0xDD, 0x00, 0x05, 0x02, 0x0C, 0x00, 0xAB, 0xA5],
        [0xAA, 0xDD, 0x00, 0x03, 0x01, 0x0C, 0x0D]],
       [[0xAA, 0xDD, 0x00, 0x04, 0x03, 0x0C, 0x00, 0x0F],
        [0xAA, 0xDD, 0x00, 0x04, 0x01, 0x0C, 0x01, 0x0C]]⟩
      ⟨[[0xAA, 0xDD, 0x00, 0x05, 0x02, 0x0C, 0x00, 0xAB, 0xA5],
        [0xAA, 0xDD, 0x00, 0x03, 0x01, 0x0C, 0x0D],
        [0xAA, 0xDD, 0x00, 0x05, 0x03, 0x0C, 0x00, 0xAB, 0xA4]],
       [[0xAA, 0xDD, 0x00, 0x04, 0x01, 0x0C, 0x01, 0x0C]]⟩
      ⟨[[0xAA, 0xDD, 0x00, 0x05, 0x02, 0x0C, 0x00, 0xAB, 0xA5],
        [0xAA, 0xDD, 0x00, 0x03, 0x01, 0x0C, 0x0D],
        [0xAA, 0xDD, 0x00, 0x05, 0x03, 0x0C, 0x00, 0xAB, 0xA4],
        [0xAA, 0xDD, 0x00, 0x03, 0x01, 0x0C, 0x0D]], []⟩
      (0, []) (0, []) none
      (by decide) (by decide) (by decide) (by decide)⟩

/-! ## Hex codec lemmas -/

/-- Each nibble encodes to a non-space character that decodes back to itself. -/
theorem hexDigit_spec : ∀ x : Nat, x < 16 →
    hexDigit x ≠ ' ' ∧ hexVal (hexDigit x) = some x := by
  decide

/-- One step of the encoder: a byte's two digits, then the separator when more
bytes follow. -/
theorem strtohex_cons (c : Nat) (cs : List Nat) (sep : List Char) :
    _strtohex (c :: cs) sep =
      byteHexChars c ++ (if cs = [] then [] else sep ++ _strtohex cs sep) := by
  cases cs with
  | nil => simp [_strtohex, List.intercalate]
  | cons d ds => simp [_strtohex, List.intercalate]

/-- Reassembling a byte from its two nibbles. -/
theorem nibbles_recombine (c : Nat) : ((c / 16) <<< 4) ||| (c % 16) = c := by
  have h4 := shiftLeft_or_eq_add (c / 16) 4 (c % 16) (by omega)
  rw [h4]
  omega

/-- The decoder loop inverts the encoder, for any accumulator. -/
theorem hextostrLoop_strtohex : ∀ b : List Nat, (∀ c ∈ b, c < 256) →
    ∀ acc : List Nat, hextostrLoop (_strtohex b [' ']) none acc = .ok (acc ++ b) := by
  intro b
  induction b with
  | nil =>
    intro _ acc
    simp [_strtohex, List.intercalate, hextostrLoop]
  | cons c cs ih =>
    intro hb acc
    have hc : c < 256 := hb c (List.mem_cons_self c cs)
    have hcs : ∀ x ∈ cs, x < 256 := fun x hx => hb x (List.mem_cons_of_mem c hx)
    have h1 := hexDigit_spec (c / 16) (by omega)
    have h2 := hexDigit_spec (c % 16) (by omega)
    rw [strtohex_cons]
    cases cs with
    | nil =>
      simp [byteHexChars, hextostrLoop, h1.1, h1.2, h2.1, h2.2, nibbles_recombine c]
    | cons d ds =>
      have hih := ih hcs (acc ++ [c])
      simp [byteHexChars, hextostrLoop, h1.1, h1.2, h2.1, h2.2, nibbles_recombine c,
        hih]

/-- Claim C7: decoding the hex string produced by the encoder (with its
default single-space separator) returns the original byte sequence. -/
theorem hextostr_strtohex_roundtrip (b : List Nat) (hb : ∀ c ∈ b, c < 256) :
    _hextostr (_strtohex b [' ']) = .ok b := by
  have h := hextostrLoop_strtohex b hb []
  simpa [_hextostr] using h

/-- Witness for `hextostr_strtohex_roundtrip` on the bytes `00 ff 1a`. -/
theorem hextostr_strtohex_roundtrip_witness :
    (∀ c ∈ ([0x00, 0xFF, 0x1A] : List Nat), c < 256) ∧
    _hextostr (_strtohex [0x00, 0xFF, 0x1A] [' ']) = .ok [0x00, 0xFF, 0x1A] :=
  ⟨by decide, hextostr_strtohex_roundtrip [0x00, 0xFF, 0x1A] (by decide)⟩

/-- The decoder loop fails exactly on a bad non-space character or on odd
parity of the hex-digit count (the pending nibble included). -/
theorem hextostrLoop_error_iff : ∀ (s : List Char) (tmp : Option Nat) (acc : List Nat),
    (∃ e, hextostrLoop s tmp acc = .error e) ↔
      ((∃ c ∈ s, c ≠ ' ' ∧ hexVal c = none) ∨
       (s.countP (fun c => (hexVal c).isSome) + (if tmp.isSome then 1 else 0)) % 2 = 1) := by
  intro s
  induction s with
  | nil =>
    intro tmp acc
    cases tmp <;> simp [hextostrLoop]
  | cons c rest ih =>
    intro tmp acc
    by_cases hsp : c = ' '
    · subst hsp
      have hv : hexVal ' ' = none := by decide
      rw [show hextostrLoop (' ' :: rest) tmp acc = hextostrLoop rest tmp acc from by
        simp [hextostrLoop]]
      rw [ih tmp acc]
      simp [hv, List.countP_cons]
    · cases hvc : hexVal c with
      | none =>
        rw [show hextostrLoop (c :: rest) tmp acc = .error "not an hexadecimal character"
          from by simp [hextostrLoop, hsp, hvc]]
        constructor
        · intro _
          exact Or.inl ⟨c, List.mem_cons_self c rest, hsp, hvc⟩
        · intro _
          exact ⟨_, rfl⟩
      | some v =>
        cases tmp with
        | none =>
          rw [show hextostrLoop (c :: rest) none acc = hextostrLoop rest (some v) acc
            from by simp [hextostrLoop, hsp, hvc]]
          rw [ih (some v) acc]
          simp [List.countP_cons, hvc, hsp]
        | some t =>
          rw [show hextostrLoop (c :: rest) (some t) acc =
              hextostrLoop rest none (acc ++ [(t <<< 4) ||| v]) from by
            simp [hextostrLoop, hsp, hvc]]
          rw [ih none (acc ++ [(t <<< 4) ||| v])]
          have hex_iff : (∃ x ∈ rest, x ≠ ' ' ∧ hexVal x = none) ↔
              (∃ x ∈ c :: rest, x ≠ ' ' ∧ hexVal x = none) := by
            constructor
            · rintro ⟨x, hx, hx1, hx2⟩
              exact ⟨x, List.mem_cons_of_mem c hx, hx1, hx2⟩
            · rintro ⟨x, hx, hx1, hx2⟩
              rcases List.mem_cons.mp hx with rfl | hx
              · rw [hvc] at hx2
                cases hx2
              · exact ⟨x, hx, hx1, hx2⟩
          exact or_congr hex_iff (by simp [List.countP_cons, hvc]; omega)

/-- Claim C8: `_hextostr` fails exactly on an input containing a non-space
character that is not a hex digit, or containing an odd number of hex digits;
it succeeds on every other input. -/
theorem hextostr_fails_iff (s : List Char) :
    (∃ e, _hextostr s = .error e) ↔
      ((∃ c ∈ s, c ≠ ' ' ∧ hexVal c = none) ∨
       (s.countP fun c => (hexVal c).isSome) % 2 = 1) := by
  have h := hextostrLoop_error_iff s none []
  simpa [_hextostr] using h

end RfidApp
